import Mathlib

/-!
Verification of the 7-segment display driver of the digital-thermometer
firmware: a shallow embedding of the character generator
(character_generator.c), the double-buffered display driver
(driver_7_seg_init, driver_7_seg_send_buffer, HAL_TIM_PeriodElapsedCallback,
HAL_SPI_TxCpltCallback) and the producer/consumer buffer handoff.

Machine integers are modelled as Nat, with an explicit mod 2 to the 8th
wherever the C code can overflow a uint8_t (the per-digit skip counters).
The interrupt-driven system is modelled as a deterministic labelled step
function: a label is either a timer tick (the TIM6 branch of
HAL_TIM_PeriodElapsedCallback), an SPI-complete interrupt, a call into
driver_7_seg_send_buffer from the main context, or one micro-step of an
in-progress driver_7_seg_send_buffer call (the busy-wait check, one loop
iteration writing one slot entry, or the final flag store).
-/

set_option autoImplicit false

namespace SevenSeg

/-- Driver status codes, from driver_7_seg_api.h. -/
inductive driver_7_seg_status_t where
  | DRIVER_7_SEG_STATUS_OK
  | DRIVER_7_SEG_STATUS_NOT_INITIALIZED
  | DRIVER_7_SEG_STATUS_SEND_ERROR
  | DRIVER_7_SEG_STATUS_INVALID_PARAMETERS
  | DRIVER_7_SEG_STATUS_BUSY
deriving DecidableEq

export driver_7_seg_status_t (DRIVER_7_SEG_STATUS_OK DRIVER_7_SEG_STATUS_NOT_INITIALIZED
  DRIVER_7_SEG_STATUS_SEND_ERROR DRIVER_7_SEG_STATUS_INVALID_PARAMETERS DRIVER_7_SEG_STATUS_BUSY)

/-- Brightness levels from driver_7_seg_api.h (values of the C enum). -/
def LEVEL_5_MAX : Nat := 0

def LEVEL_4 : Nat := 1

def LEVEL_3 : Nat := 5

def LEVEL_2 : Nat := 15

def LEVEL_1_MIN : Nat := 30

/-- The sentinel brightness value marking a digit as unused (always blanked). -/
def NOT_USED : Nat := 255

/-- NUMBER_OF_SEGMENTS = 4, from driver_7_seg_constant_t. -/
def NUMBER_OF_SEGMENTS : Nat := 4

/-- One buffer slot: transfer words and skip thresholds for the 4 digits,
mirroring driver_7_seg_segment_buffer_t. -/
structure driver_7_seg_segment_buffer_t where
  data : Fin 4 → Nat
  skip_buff : Fin 4 → Nat

/-- States of the transfer state machine, from driver_7_seg_transfer_state_t. -/
inductive driver_7_seg_transfer_state_t where
  | STATE_PREPARE
  | STATE_START_SENDING
  | STATE_WAIT_SPI
  | STATE_POST
  | STATE_WAIT
deriving DecidableEq

export driver_7_seg_transfer_state_t (STATE_PREPARE STATE_START_SENDING STATE_WAIT_SPI
  STATE_POST STATE_WAIT)

/-- The global mutable state of the driver translation unit: the double
buffers and shared skip counters (driver_7_seg_display_buffers_t buffers),
the volatile flags, the active-buffer index, the static locals of
HAL_TIM_PeriodElapsedCallback (state, current_segment_index, and the
data_buf/skip_buf pointers, modelled as the index of the buffer they point
into), the chip-select line level, and the config struct (handles modelled
as a presence flag, config.initialized as the Bool of the comparison with
DRIVER_7_SEG_STATUS_OK, plus whether HAL_TIM_Base_Start_IT succeeded). -/
structure DriverState where
  buf0 : driver_7_seg_segment_buffer_t
  buf1 : driver_7_seg_segment_buffer_t
  skip_counter : Fin 4 → Nat
  spi_tranfer_complete : Nat
  new_buffer_ready : Nat
  current_active_buf_index : Nat
  tstate : driver_7_seg_transfer_state_t
  current_segment_index : Fin 4
  selected_buf : Nat
  cs_low : Bool
  cfg_has_handles : Bool
  cfg_initialized : Bool
  timer_armed : Bool

/-- The skip_buff array the static skip_buf pointer currently points at. -/
def skipSel (s : DriverState) : Fin 4 → Nat :=
  if s.selected_buf = 0 then s.buf0.skip_buff else s.buf1.skip_buff

/-- The data array the static data_buf pointer currently points at. -/
def dataSel (s : DriverState) : Fin 4 → Nat :=
  if s.selected_buf = 0 then s.buf0.data else s.buf1.data

/-- driver_7_seg_init. Null handles are modelled by the three Bool
parameters; tim_start_ok models the result of HAL_TIM_Base_Start_IT. -/
def driver_7_seg_init (hspi_null htim_null gpio_null tim_start_ok : Bool)
    (s : DriverState) : driver_7_seg_status_t × DriverState :=
  if hspi_null || htim_null || gpio_null then
    (DRIVER_7_SEG_STATUS_NOT_INITIALIZED, s)
  else
    let s1 := { s with cs_low := false, cfg_has_handles := true }
    let s2 := { s1 with buf0 := { s1.buf0 with skip_buff := fun _ => NOT_USED } }
    if !tim_start_ok then
      (DRIVER_7_SEG_STATUS_NOT_INITIALIZED, s2)
    else
      (DRIVER_7_SEG_STATUS_OK, { s2 with timer_armed := true, cfg_initialized := true })

/-- driver_7_seg_send_buffer as a whole-call function: the result of a call
that has completed (its busy-wait has observed new_buffer_ready = 0 and its
writes have been performed).  Null pointer arguments are modelled by Option. -/
def driver_7_seg_send_buffer (data : Option (Fin 4 → Nat))
    (brightness_level : Option (Fin 4 → Nat)) (size : Nat)
    (s : DriverState) : driver_7_seg_status_t × DriverState :=
  if !s.cfg_initialized then
    (DRIVER_7_SEG_STATUS_NOT_INITIALIZED, s)
  else if data.isNone || brightness_level.isNone || size ≠ NUMBER_OF_SEGMENTS then
    (DRIVER_7_SEG_STATUS_INVALID_PARAMETERS, s)
  else
    let d := data.getD (fun _ => 0)
    let b := brightness_level.getD (fun _ => 0)
    if s.current_active_buf_index = 0 then
      (DRIVER_7_SEG_STATUS_OK,
        { s with buf1 := { data := d, skip_buff := fun i => b i % 256 }, new_buffer_ready := 1 })
    else
      (DRIVER_7_SEG_STATUS_OK,
        { s with buf0 := { data := d, skip_buff := fun i => b i % 256 }, new_buffer_ready := 1 })

/-- The constant blank word transmitted when a digit is skipped
(static const uint16_t void_data = 0). -/
def void_data : Nat := 0

/-- The TIM6 branch of HAL_TIM_PeriodElapsedCallback: one timer tick of the
display state machine.  Returns the new state together with the word handed
to HAL_SPI_Transmit_IT on this tick, if any. -/
def HAL_TIM_PeriodElapsedCallback (s : DriverState) : DriverState × Option Nat :=
  match s.tstate with
  | STATE_PREPARE =>
    let s1 :=
      if s.new_buffer_ready = 1 then
        { s with current_active_buf_index := s.current_active_buf_index ^^^ 1,
                 new_buffer_ready := 0 }
      else s
    ({ s1 with selected_buf := s1.current_active_buf_index, cs_low := true,
               tstate := STATE_START_SENDING }, none)
  | STATE_START_SENDING =>
    let i := s.current_segment_index
    if skipSel s i ≠ NOT_USED ∧ skipSel s i ≤ s.skip_counter i then
      ({ s with spi_tranfer_complete := 0,
                skip_counter := Function.update s.skip_counter i 0,
                tstate := STATE_WAIT_SPI }, some (dataSel s i))
    else
      ({ s with spi_tranfer_complete := 0,
                skip_counter := Function.update s.skip_counter i ((s.skip_counter i + 1) % 256),
                tstate := STATE_WAIT_SPI }, some void_data)
  | STATE_WAIT_SPI =>
    if s.spi_tranfer_complete ≠ 0 then ({ s with tstate := STATE_POST }, none)
    else (s, none)
  | STATE_POST =>
    ({ s with cs_low := false, tstate := STATE_WAIT }, none)
  | STATE_WAIT =>
    ({ s with current_segment_index := ⟨(s.current_segment_index.val + 1) % 4, Nat.mod_lt _ (by omega)⟩,
              tstate := STATE_PREPARE }, none)

/-- HAL_SPI_TxCpltCallback: sets the volatile completion flag when the
callback is for the configured SPI handle. -/
def HAL_SPI_TxCpltCallback (hspi_matches : Bool) (s : DriverState) : DriverState :=
  if hspi_matches then { s with spi_tranfer_complete := 1 } else s

/-- The zero-initialized translation-unit statics (config = {0},
buffers = {0}, flags 0, active index 0, state machine at STATE_PREPARE
with segment index 0). -/
def zeroDriverState : DriverState where
  buf0 := ⟨fun _ => 0, fun _ => 0⟩
  buf1 := ⟨fun _ => 0, fun _ => 0⟩
  skip_counter := fun _ => 0
  spi_tranfer_complete := 0
  new_buffer_ready := 0
  current_active_buf_index := 0
  tstate := STATE_PREPARE
  current_segment_index := 0
  selected_buf := 0
  cs_low := false
  cfg_has_handles := false
  cfg_initialized := false
  timer_armed := false

/-- The driver state right after a successful driver_7_seg_init call on the
freshly loaded firmware image. -/
def initDriverState : DriverState :=
  (driver_7_seg_init false false false true zeroDriverState).2

/-! ## Character generator (character_generator.c) -/

/-- INVALID_CHAR = 0xFF: all segments off. -/
def INVALID_CHAR : Nat := 0xFF

/-- The char_mappings lookup table: ASCII code paired with the 7-segment
code from the chars enum.  Entries in source order. -/
def char_mappings : List (Nat × Nat) :=
  [(0x30, 0xC0), (0x31, 0xF9), (0x32, 0xA4), (0x33, 0xB0), (0x34, 0x99),
   (0x35, 0x92), (0x36, 0x82), (0x37, 0xF8), (0x38, 0x80), (0x39, 0x90),
   (0x48, 0x89), (0x68, 0x89), (0x46, 0x8E), (0x66, 0x8E), (0x43, 0xC6),
   (0x63, 0xC6), (0x2D, 0xBF)]

/-- The ASCII codes that have an entry in char_mappings. -/
def supported_chars : List Nat := char_mappings.map Prod.fst

/-- The inner lookup loop of char_gen_transmit: first matching entry of
char_mappings, defaulting to INVALID_CHAR. -/
def lookup_code (ch : Nat) : Nat :=
  match char_mappings.find? (fun m => m.1 == ch) with
  | some m => m.2
  | none => INVALID_CHAR

/-- Decimal-point status for one digit, from period_status in bl.h. -/
inductive period_status where
  | PERIOD_ON
  | PERIOD_OFF
deriving DecidableEq

export period_status (PERIOD_ON PERIOD_OFF)

/-- Status codes of the character generator, from char_generator_status_t. -/
inductive char_generator_status_t where
  | CHAR_GEN_STATUS_OK
  | CHAR_GEN_STATUS_INVALID_PARAMETERS
  | CHAR_GEN_STATUS_NOT_INITIALIZED
  | CHAR_GEN_STATUS_NOT_TRANSMITTED
deriving DecidableEq

export char_generator_status_t (CHAR_GEN_STATUS_OK CHAR_GEN_STATUS_INVALID_PARAMETERS
  CHAR_GEN_STATUS_NOT_INITIALIZED CHAR_GEN_STATUS_NOT_TRANSMITTED)

/-- The frame-request configuration char_gen_data_t: 4 ASCII digits, 4
decimal-point flags and 4 brightness levels. -/
structure char_gen_data_t where
  digits : Fin 4 → Nat
  periods : Fin 4 → period_status
  brightness : Fin 4 → Nat

/-- The body of one iteration of the encoding loop of char_gen_transmit:
look the character up, clear bit 7 when the period is on
(segment_data &= ~(1 << 7)), then pack
out_data[i] = (uint16_t)(segment_data << 8) | (1 << i). -/
def segment_word (ch : Nat) (p : period_status) (i : Fin 4) : Nat :=
  let code := lookup_code ch
  let segment_data := if p = PERIOD_ON then code &&& 0x7F else code
  ((segment_data % 256) <<< 8) ||| (1 <<< i.val)

/-- The out_data array built by the encoding loop of char_gen_transmit. -/
def char_gen_out_data (config : char_gen_data_t) : Fin 4 → Nat :=
  fun i => segment_word (config.digits i) (config.periods i) i

/-- char_gen_transmit.  A null config pointer is modelled by none; the
result none models the assert(config != NULL) firing (abort) rather than a
status being returned.  On a non-null config the function encodes the 4
digits, calls api_7_seg.send_buffer, and maps any non-OK driver status to
CHAR_GEN_STATUS_NOT_TRANSMITTED. -/
def char_gen_transmit (config : Option char_gen_data_t) (s : DriverState) :
    Option (char_generator_status_t × DriverState) :=
  match config with
  | none => none
  | some cfg =>
    let res := driver_7_seg_send_buffer (some (char_gen_out_data cfg))
      (some cfg.brightness) NUMBER_OF_SEGMENTS s
    if res.1 ≠ DRIVER_7_SEG_STATUS_OK then
      some (CHAR_GEN_STATUS_NOT_TRANSMITTED, res.2)
    else
      some (CHAR_GEN_STATUS_OK, res.2)

/-! ## The interleaved producer/consumer system

driver_7_seg_send_buffer runs in the main context while the timer and SPI
interrupts mutate the same statics.  To reason about the handoff we model
the post-validation body of driver_7_seg_send_buffer as individual
micro-steps: the busy-wait check, the four loop iterations (each writing
data[i] and skip_buff[i] of the slot chosen by the buffer-index test), and
the final new_buffer_ready = 1 store. -/

/-- The frame a send_buffer call carries: the data array and the brightness
array (already cast to uint8_t). -/
structure Frame where
  data : Fin 4 → Nat
  skip_buff : Fin 4 → Nat

/-- Program counter of the producer context inside
driver_7_seg_send_buffer: idle, busy-waiting on new_buffer_ready, at loop
index i of the copy loop into slot target, or returned with a status. -/
inductive ProducerPC where
  | pIdle
  | pWait (f : Frame)
  | pWrite (f : Frame) (target : Nat) (i : Nat)
  | pDone (st : driver_7_seg_status_t)

/-- State of the whole system: driver statics, producer program counter,
and the words handed to HAL_SPI_Transmit_IT so far. -/
structure SysState where
  drv : DriverState
  pc : ProducerPC
  emitted : List Nat

/-- One scheduling event: a TIM6 tick, an SPI-complete interrupt, the main
context entering driver_7_seg_send_buffer with a frame, or the main context
executing one micro-step of the call in progress. -/
inductive SysLabel where
  | tick
  | spiDone
  | callSend (f : Frame)
  | prodStep

/-- Write entry i of frame f into buffer slot target (one iteration of the
copy loop in driver_7_seg_send_buffer). -/
def writeSlot (s : DriverState) (target : Nat) (i : Fin 4) (f : Frame) : DriverState :=
  if target = 1 then
    { s with buf1 := { data := Function.update s.buf1.data i (f.data i),
                       skip_buff := Function.update s.buf1.skip_buff i (f.skip_buff i) } }
  else
    { s with buf0 := { data := Function.update s.buf0.data i (f.data i),
                       skip_buff := Function.update s.buf0.skip_buff i (f.skip_buff i) } }

/-- The data array of buffer slot t. -/
def slot_data (s : DriverState) (t : Nat) : Fin 4 → Nat :=
  if t = 1 then s.buf1.data else s.buf0.data

/-- The skip_buff array of buffer slot t. -/
def slot_skip (s : DriverState) (t : Nat) : Fin 4 → Nat :=
  if t = 1 then s.buf1.skip_buff else s.buf0.skip_buff

/-- The deterministic system step.  callSend performs the validation prefix
of driver_7_seg_send_buffer (initialization check) and enters the busy-wait;
prodStep advances the call in progress: the wait spins while
new_buffer_ready is nonzero, then latches the target slot from
current_active_buf_index (buf1 if the active index is 0, buf0 otherwise),
the copy loop writes one entry per step, and the final step stores
new_buffer_ready = 1 and returns DRIVER_7_SEG_STATUS_OK. -/
def sysStep (l : SysLabel) (s : SysState) : SysState :=
  match l with
  | .tick =>
    let r := HAL_TIM_PeriodElapsedCallback s.drv
    { s with drv := r.1, emitted := s.emitted ++ r.2.toList }
  | .spiDone => { s with drv := HAL_SPI_TxCpltCallback true s.drv }
  | .callSend f =>
    match s.pc with
    | .pIdle =>
      if !s.drv.cfg_initialized then { s with pc := .pDone DRIVER_7_SEG_STATUS_NOT_INITIALIZED }
      else { s with pc := .pWait f }
    | .pDone _ =>
      if !s.drv.cfg_initialized then { s with pc := .pDone DRIVER_7_SEG_STATUS_NOT_INITIALIZED }
      else { s with pc := .pWait f }
    | _ => s
  | .prodStep =>
    match s.pc with
    | .pWait f =>
      if s.drv.new_buffer_ready ≠ 0 then s
      else { s with pc := .pWrite f (if s.drv.current_active_buf_index = 0 then 1 else 0) 0 }
    | .pWrite f t i =>
      if h : i < 4 then
        { s with drv := writeSlot s.drv t ⟨i, h⟩ f, pc := .pWrite f t (i + 1) }
      else
        { s with drv := { s.drv with new_buffer_ready := 1 },
                 pc := .pDone DRIVER_7_SEG_STATUS_OK }
    | _ => s

/-- Run a list of scheduling events from a start state. -/
def runLabels : List SysLabel → SysState → SysState
  | [], s => s
  | l :: ls, s => runLabels ls (sysStep l s)

/-- The system state right after successful initialization: driver statics
initialized, producer idle, nothing transmitted yet. -/
def initSysState : SysState where
  drv := initDriverState
  pc := .pIdle
  emitted := []

/-! ## The per-digit skip logic in isolation -/

/-- The skip decision of STATE_START_SENDING for one digit, as a function
of the configured threshold and the running counter: true with counter
reset to 0 when the real word is transmitted, false with the counter
incremented (as a uint8_t) when the blank word is transmitted. -/
def start_sending_visit (threshold counter : Nat) : Bool × Nat :=
  if threshold ≠ NOT_USED ∧ threshold ≤ counter then (true, 0)
  else (false, (counter + 1) % 256)

/-- The skip counter of a digit with fixed threshold T after n scheduler
visits, starting from the reset value 0. -/
def visit_counter (T : Nat) : Nat → Nat
  | 0 => 0
  | n + 1 => (start_sending_visit T (visit_counter T n)).2

/-- Whether visit n (0-based) of a digit with fixed threshold T transmits
the real transfer word. -/
def visit_is_real (T n : Nat) : Bool :=
  (start_sending_visit T (visit_counter T n)).1

/-! ## Concrete scenarios -/

/-- A concrete frame with maximum brightness on all digits. -/
def frameA : Frame := ⟨![100, 101, 102, 103], ![0, 0, 0, 0]⟩

/-- A second concrete frame with maximum brightness on all digits,
disjoint words from frameA. -/
def frameB : Frame := ⟨![200, 201, 202, 203], ![0, 0, 0, 0]⟩

/-- The events of one complete driver_7_seg_send_buffer call: the call, the
wait check, the four copy-loop iterations and the flag store. -/
def submitLabels (f : Frame) : List SysLabel :=
  SysLabel.callSend f :: List.replicate 6 .prodStep

/-- The events that refresh one digit: ticks for STATE_PREPARE and
STATE_START_SENDING, the SPI-complete interrupt, then ticks for
STATE_WAIT_SPI, STATE_POST and STATE_WAIT. -/
def scanDigitLabels : List SysLabel :=
  [.tick, .tick, .spiDone, .tick, .tick, .tick]

/-- Submit frameA, refresh digit 0, then submit frameB mid-scan. -/
def mixPrefixLabels : List SysLabel :=
  submitLabels frameA ++ scanDigitLabels ++ submitLabels frameB

/-- mixPrefixLabels followed by the refreshes of digits 1, 2 and 3,
completing the scan cycle that started at digit 0. -/
def mixFullLabels : List SysLabel :=
  mixPrefixLabels ++ scanDigitLabels ++ scanDigitLabels ++ scanDigitLabels

/-- Whether the producer has returned from driver_7_seg_send_buffer with
DRIVER_7_SEG_STATUS_OK. -/
def pcIsDoneOK : ProducerPC → Bool
  | .pDone DRIVER_7_SEG_STATUS_OK => true
  | _ => false

/-- The frame request of the concrete scenario in the spec: characters
C, 1, 0, 5 (ASCII 0x43, 0x31, 0x30, 0x35), decimal point on for digit 2
only, maximum brightness everywhere. -/
def cfgC105 : char_gen_data_t :=
  ⟨![0x43, 0x31, 0x30, 0x35], ![PERIOD_OFF, PERIOD_OFF, PERIOD_ON, PERIOD_OFF],
   ![LEVEL_5_MAX, LEVEL_5_MAX, LEVEL_5_MAX, LEVEL_5_MAX]⟩

/-- A frame request whose first character Z (ASCII 0x5A) is not in the
supported character set. -/
def cfgZ : char_gen_data_t :=
  ⟨![0x5A, 0x31, 0x32, 0x33], ![PERIOD_OFF, PERIOD_OFF, PERIOD_OFF, PERIOD_OFF],
   ![LEVEL_5_MAX, LEVEL_5_MAX, LEVEL_5_MAX, LEVEL_5_MAX]⟩

/-- Whether a label is a driver_7_seg_send_buffer call from the main
context. -/
def isCallSend : SysLabel → Bool
  | .callSend _ => true
  | _ => false

/-- Invariant of the copy-loop phase of a driver_7_seg_send_buffer call:
while the producer is inside the loop, the ready flag is still clear, the
target slot is the complement of the active slot as latched by the
buffer-index test, and the entries written so far coincide with the frame
being submitted. -/
def WriteInvAt (d : DriverState) : ProducerPC → Prop
  | .pWrite f t i =>
    d.new_buffer_ready = 0 ∧
    t = (if d.current_active_buf_index = 0 then 1 else 0) ∧
    i ≤ 4 ∧
    ∀ j : Fin 4, j.val < i → slot_data d t j = f.data j ∧ slot_skip d t j = f.skip_buff j
  | _ => True

/-- WriteInvAt lifted to system states. -/
def WriteInv (s : SysState) : Prop := WriteInvAt s.drv s.pc

/-- Invariant of the system between init and the first submit call: the
producer is idle, no frame is pending, slot 0 is active and selected, its
skip thresholds are all the NOT_USED sentinel, and every word transmitted
so far was the blank word. -/
def BlankInv (s : SysState) : Prop :=
  s.pc = .pIdle ∧ s.drv.new_buffer_ready = 0 ∧ s.drv.current_active_buf_index = 0 ∧
  s.drv.selected_buf = 0 ∧ (∀ j : Fin 4, s.drv.buf0.skip_buff j = NOT_USED) ∧
  (∀ w ∈ s.emitted, w = void_data)

/-- The post-init driver state moved to STATE_START_SENDING: digit 0 still
has the NOT_USED threshold written by driver_7_seg_init. -/
def ssDemoState : DriverState :=
  { initDriverState with tstate := STATE_START_SENDING }

/-- ssDemoState with maximum brightness (threshold 0) on every digit of
the selected buffer. -/
def ssMaxDemoState : DriverState :=
  { ssDemoState with buf0 := { ssDemoState.buf0 with skip_buff := fun _ => LEVEL_5_MAX } }

/-! ## Theorems -/

/-- Claim C5: encoding the frame request with characters C, 1, 0, 5,
decimal point on only for digit 2, and maximum brightness everywhere,
yields exactly the transfer words 0xC601, 0xF902, 0x4004, 0x9208 in digit
order; the low bytes are the one-hot masks 1, 2, 4, 8, digit 2 has its
decimal-point bit (bit 7 of the high byte) cleared, and the other three
digits have it set. -/
theorem c5_transmit_C105_words :
    char_gen_out_data cfgC105 0 = 0xC601 ∧
    char_gen_out_data cfgC105 1 = 0xF902 ∧
    char_gen_out_data cfgC105 2 = 0x4004 ∧
    char_gen_out_data cfgC105 3 = 0x9208 ∧
    (∀ i : Fin 4, char_gen_out_data cfgC105 i % 256 = 1 <<< i.val) ∧
    (char_gen_out_data cfgC105 2) >>> 8 &&& 0x80 = 0 ∧
    (∀ i : Fin 4, i ≠ 2 → (char_gen_out_data cfgC105 i) >>> 8 &&& 0x80 = 0x80) := by
  decide

/-- Helper: the timer tick in STATE_START_SENDING when the skip condition
holds transmits the real word of the selected buffer and resets the skip
counter of the current digit. -/
theorem tick_ss_real (s : DriverState) (h : s.tstate = STATE_START_SENDING)
    (hc : skipSel s s.current_segment_index ≠ NOT_USED ∧
          skipSel s s.current_segment_index ≤ s.skip_counter s.current_segment_index) :
    HAL_TIM_PeriodElapsedCallback s =
      ({ s with spi_tranfer_complete := 0,
                skip_counter := Function.update s.skip_counter s.current_segment_index 0,
                tstate := STATE_WAIT_SPI },
       some (dataSel s s.current_segment_index)) := by
  obtain ⟨b0, b1, sc, spi, nbr, act, tst, idx, sel, cs, hh, ini, ta⟩ := s
  dsimp only at h
  subst h
  dsimp only [HAL_TIM_PeriodElapsedCallback]
  rw [if_pos hc]

/-- Helper: the timer tick in STATE_START_SENDING when the skip condition
fails transmits the blank word void_data and increments the skip counter of
the current digit as a uint8_t. -/
theorem tick_ss_blank (s : DriverState) (h : s.tstate = STATE_START_SENDING)
    (hc : ¬ (skipSel s s.current_segment_index ≠ NOT_USED ∧
          skipSel s s.current_segment_index ≤ s.skip_counter s.current_segment_index)) :
    HAL_TIM_PeriodElapsedCallback s =
      ({ s with spi_tranfer_complete := 0,
                skip_counter := Function.update s.skip_counter s.current_segment_index
                  ((s.skip_counter s.current_segment_index + 1) % 256),
                tstate := STATE_WAIT_SPI },
       some void_data) := by
  obtain ⟨b0, b1, sc, spi, nbr, act, tst, idx, sel, cs, hh, ini, ta⟩ := s
  dsimp only at h
  subst h
  dsimp only [HAL_TIM_PeriodElapsedCallback]
  rw [if_neg hc]

/-- Claim C7 (code bug): char_gen_transmit never returns
CHAR_GEN_STATUS_INVALID_PARAMETERS, contradicting its own doc comment and
the spec.  A null config fires assert(config != NULL) (modelled as none,
an abort) instead of returning a status, and a request containing the
unsupported character Z returns CHAR_GEN_STATUS_OK on an initialized
driver. -/
theorem c7_transmit_no_invalid_parameters :
    char_gen_transmit none initDriverState = none ∧
    (char_gen_transmit (some cfgZ) initDriverState).map Prod.fst = some CHAR_GEN_STATUS_OK ∧
    CHAR_GEN_STATUS_OK ≠ CHAR_GEN_STATUS_INVALID_PARAMETERS ∧
    (∀ (cfg : char_gen_data_t) (s : DriverState),
      (char_gen_transmit (some cfg) s).map Prod.fst ≠ some CHAR_GEN_STATUS_INVALID_PARAMETERS) := by
  refine ⟨rfl, by decide, by decide, ?_⟩
  intro cfg s
  by_cases hini : s.cfg_initialized
  · by_cases hact : s.current_active_buf_index = 0
    · simp [char_gen_transmit, driver_7_seg_send_buffer, hini, hact, NUMBER_OF_SEGMENTS]
    · simp [char_gen_transmit, driver_7_seg_send_buffer, hini, hact, NUMBER_OF_SEGMENTS]
  · simp [char_gen_transmit, driver_7_seg_send_buffer, hini]

/-- Claim C6: every character outside the supported set encodes to the
INVALID_CHAR sentinel 0xFF (all segments off, before the decimal-point
adjustment), and char_gen_transmit reports the same status it would for any
supported text: the status depends only on the driver state, never on
which characters were requested, and it is OK or NOT_TRANSMITTED, not an
invalid-parameters error. -/
theorem c6_unsupported_char_sentinel (ch : Nat) (h : ch ∉ supported_chars) :
    lookup_code ch = INVALID_CHAR ∧
    ∀ (cfg : char_gen_data_t) (s : DriverState),
      (char_gen_transmit (some cfg) s).map Prod.fst =
        some (if s.cfg_initialized then CHAR_GEN_STATUS_OK else CHAR_GEN_STATUS_NOT_TRANSMITTED) := by
  constructor
  · have hnone : char_mappings.find? (fun m => m.1 == ch) = none := by
      rw [List.find?_eq_none]
      intro m hm
      simp only [beq_iff_eq]
      intro heq
      exact h (heq ▸ List.mem_map_of_mem Prod.fst hm)
    simp [lookup_code, hnone]
  · intro cfg s
    by_cases hini : s.cfg_initialized
    · by_cases hact : s.current_active_buf_index = 0
      · simp [char_gen_transmit, driver_7_seg_send_buffer, hini, hact, NUMBER_OF_SEGMENTS]
      · simp [char_gen_transmit, driver_7_seg_send_buffer, hini, hact, NUMBER_OF_SEGMENTS]
    · simp [char_gen_transmit, driver_7_seg_send_buffer, hini]

/-- Witness for c6_unsupported_char_sentinel at the concrete character Z. -/
theorem c6_unsupported_char_sentinel_witness :
    (0x5A : Nat) ∉ supported_chars ∧ lookup_code 0x5A = INVALID_CHAR := by
  refine ⟨by decide, (c6_unsupported_char_sentinel 0x5A (by decide)).1⟩

/-- Claim C8: driver_7_seg_init returns DRIVER_7_SEG_STATUS_NOT_INITIALIZED
when any of the SPI, timer or GPIO handles is null or when
HAL_TIM_Base_Start_IT fails; with a null bus handle it returns before doing
anything, leaving the whole driver state unchanged (in particular no timer
armed); after a timer-start failure the timer stays unarmed and
config.initialized is not set, so every driver_7_seg_send_buffer call still
fails with DRIVER_7_SEG_STATUS_NOT_INITIALIZED. -/
theorem c8_init_failure (hspi_null htim_null gpio_null tim_ok : Bool) (s : DriverState) :
    (hspi_null = true →
      driver_7_seg_init hspi_null htim_null gpio_null tim_ok s =
        (DRIVER_7_SEG_STATUS_NOT_INITIALIZED, s)) ∧
    ((hspi_null || htim_null || gpio_null) = true →
      driver_7_seg_init hspi_null htim_null gpio_null tim_ok s =
        (DRIVER_7_SEG_STATUS_NOT_INITIALIZED, s)) ∧
    (tim_ok = false →
      (driver_7_seg_init hspi_null htim_null gpio_null tim_ok s).1 =
        DRIVER_7_SEG_STATUS_NOT_INITIALIZED ∧
      (driver_7_seg_init hspi_null htim_null gpio_null tim_ok s).2.timer_armed = s.timer_armed ∧
      (driver_7_seg_init hspi_null htim_null gpio_null tim_ok s).2.cfg_initialized =
        s.cfg_initialized) ∧
    (∀ s2 : DriverState, s2.cfg_initialized = false →
      ∀ d b n, (driver_7_seg_send_buffer d b n s2).1 = DRIVER_7_SEG_STATUS_NOT_INITIALIZED) := by
  refine ⟨?_, ?_, ?_, ?_⟩
  · intro h; subst h; simp [driver_7_seg_init]
  · intro h; simp [driver_7_seg_init, h]
  · intro h; subst h
    by_cases hn : (hspi_null || htim_null || gpio_null) = true
    · simp [driver_7_seg_init, hn]
    · simp at hn
      simp [driver_7_seg_init, hn]
  · intro s2 h2 d b n
    simp [driver_7_seg_send_buffer, h2]

/-- Witness for c8_init_failure: a null SPI handle on the freshly loaded
image returns DRIVER_7_SEG_STATUS_NOT_INITIALIZED with the state untouched,
and a timer-start failure leaves the timer unarmed. -/
theorem c8_init_failure_witness :
    driver_7_seg_init true false false true zeroDriverState =
      (DRIVER_7_SEG_STATUS_NOT_INITIALIZED, zeroDriverState) ∧
    (driver_7_seg_init false false false false zeroDriverState).1 =
      DRIVER_7_SEG_STATUS_NOT_INITIALIZED ∧
    (driver_7_seg_init false false false false zeroDriverState).2.timer_armed = false := by
  refine ⟨(c8_init_failure true false false true zeroDriverState).1 rfl, ?_, ?_⟩
  · exact ((c8_init_failure false false false false zeroDriverState).2.2.1 rfl).1
  · exact ((c8_init_failure false false false false zeroDriverState).2.2.1 rfl).2.1

/-- Claim C4: on a STATE_START_SENDING tick, a digit whose skip threshold
is the NOT_USED sentinel always gets the blank word void_data, for every
value of its running counter (so the sentinel is excluded by the explicit
inequality test, not folded into the threshold comparison), while threshold
0 (maximum brightness) always gets the real word of the selected buffer
with the counter reset to 0. -/
theorem c4_not_used_sentinel (s : DriverState) (h : s.tstate = STATE_START_SENDING) :
    (skipSel s s.current_segment_index = NOT_USED →
      (HAL_TIM_PeriodElapsedCallback s).2 = some void_data ∧
      (HAL_TIM_PeriodElapsedCallback s).1.skip_counter s.current_segment_index =
        (s.skip_counter s.current_segment_index + 1) % 256) ∧
    (skipSel s s.current_segment_index = LEVEL_5_MAX →
      (HAL_TIM_PeriodElapsedCallback s).2 = some (dataSel s s.current_segment_index) ∧
      (HAL_TIM_PeriodElapsedCallback s).1.skip_counter s.current_segment_index = 0) := by
  constructor
  · intro h255
    rw [tick_ss_blank s h (by simp [h255])]
    simp
  · intro hmax
    rw [tick_ss_real s h ⟨by simp [hmax, LEVEL_5_MAX, NOT_USED], by simp [hmax, LEVEL_5_MAX]⟩]
    simp

/-- Witness for c4_not_used_sentinel: the post-init state in
STATE_START_SENDING (digit 0 threshold NOT_USED, counter 0) transmits the
blank word, and the same state with threshold 0 transmits the real word. -/
theorem c4_not_used_sentinel_witness :
    (HAL_TIM_PeriodElapsedCallback ssDemoState).2 = some void_data ∧
    (HAL_TIM_PeriodElapsedCallback ssMaxDemoState).2 =
      some (dataSel ssMaxDemoState ssMaxDemoState.current_segment_index) := by
  constructor
  · exact ((c4_not_used_sentinel ssDemoState rfl).1 (by decide)).1
  · exact ((c4_not_used_sentinel ssMaxDemoState rfl).2 (by decide)).1

/-- Helper: with a fixed non-sentinel threshold T, the skip counter after n
visits starting from the reset value is n mod (T + 1). -/
theorem visit_counter_eq (T : Nat) (hT : T ≤ 254) : ∀ n, visit_counter T n = n % (T + 1)
  | 0 => by simp [visit_counter]
  | n + 1 => by
    have ih := visit_counter_eq T hT n
    have hlt : n % (T + 1) < T + 1 := Nat.mod_lt _ (by omega)
    unfold visit_counter
    rw [ih]
    unfold start_sending_visit
    by_cases hc : n % (T + 1) = T
    · rw [if_pos ⟨by simp [NOT_USED]; omega, by omega⟩]
      have hadd : (n + 1) % (T + 1) = (n % (T + 1) + 1 % (T + 1)) % (T + 1) :=
        Nat.add_mod n 1 (T + 1)
      rcases Nat.eq_zero_or_pos T with h0 | hpos
      · subst h0; simp [Nat.mod_one]
      · rw [hadd, hc, Nat.mod_eq_of_lt (show 1 < T + 1 by omega), Nat.mod_self]
    · have hclt : n % (T + 1) < T := by omega
      rw [if_neg (by push_neg; intro _; omega)]
      have hadd : (n + 1) % (T + 1) = (n % (T + 1) + 1 % (T + 1)) % (T + 1) :=
        Nat.add_mod n 1 (T + 1)
      have hpos : 0 < T := by omega
      rw [hadd, Nat.mod_eq_of_lt (show 1 < T + 1 by omega),
        Nat.mod_eq_of_lt (show n % (T + 1) + 1 < T + 1 by omega)]
      simp
      omega

/-- Helper: visit n transmits the real word exactly when n is congruent to
T modulo T + 1. -/
theorem visit_is_real_iff (T : Nat) (hT : T ≤ 254) (n : Nat) :
    visit_is_real T n = true ↔ n % (T + 1) = T := by
  unfold visit_is_real start_sending_visit
  rw [visit_counter_eq T hT n]
  have hlt : n % (T + 1) < T + 1 := Nat.mod_lt _ (by omega)
  by_cases hc : n % (T + 1) = T
  · rw [if_pos ⟨by simp [NOT_USED]; omega, by omega⟩]
    simp [hc]
  · rw [if_neg (by push_neg; intro _; omega)]
    simp [hc]

/-- Helper: each aligned block of T + 1 consecutive visits contains exactly
one real transmission. -/
theorem visit_block_count (T m : Nat) (hT : T ≤ 254) :
    (Finset.filter (fun k => visit_is_real T (m * (T + 1) + k) = true)
      (Finset.range (T + 1))).card = 1 := by
  have h1 : ∀ k ∈ Finset.range (T + 1),
      (visit_is_real T (m * (T + 1) + k) = true ↔ k = T) := by
    intro k hk
    rw [Finset.mem_range] at hk
    rw [visit_is_real_iff T hT]
    have hmod : (m * (T + 1) + k) % (T + 1) = k := by
      rw [Nat.add_comm, Nat.add_mul_mod_self_right]
      exact Nat.mod_eq_of_lt hk
    rw [hmod]
  rw [Finset.filter_congr h1, Finset.filter_eq']
  simp

/-- Claim C2: for a digit with configured skip threshold T (a uint8_t value
other than the NOT_USED sentinel), starting from the reset counter value,
the counter after n visits is n mod (T + 1), visit n is a real transmission
exactly when n mod (T + 1) = T (so each block of T + 1 visits has exactly 1
real and T blank transmissions, repeating indefinitely), for T = 0 every
visit is real with the counter pinned at 0, and a STATE_START_SENDING tick
of the machine performs exactly the transition start_sending_visit on the
current digit: real word versus void_data, and the updated counter value. -/
theorem c2_dimming_law (T n m : Nat) (hT1 : T < 256) (hT2 : T ≠ NOT_USED) :
    visit_counter T n = n % (T + 1) ∧
    (visit_is_real T n = true ↔ n % (T + 1) = T) ∧
    (Finset.filter (fun k => visit_is_real T (m * (T + 1) + k) = true)
      (Finset.range (T + 1))).card = 1 ∧
    (T = LEVEL_5_MAX → visit_is_real T n = true ∧ visit_counter T n = 0) ∧
    (∀ s : DriverState, s.tstate = STATE_START_SENDING →
      (HAL_TIM_PeriodElapsedCallback s).2 =
        some (if (start_sending_visit (skipSel s s.current_segment_index)
                   (s.skip_counter s.current_segment_index)).1
              then dataSel s s.current_segment_index else void_data) ∧
      (HAL_TIM_PeriodElapsedCallback s).1.skip_counter s.current_segment_index =
        (start_sending_visit (skipSel s s.current_segment_index)
          (s.skip_counter s.current_segment_index)).2) := by
  have hT : T ≤ 254 := by
    have : T ≠ 255 := hT2
    omega
  refine ⟨visit_counter_eq T hT n, visit_is_real_iff T hT n, visit_block_count T m hT, ?_, ?_⟩
  · intro h0
    subst h0
    refine ⟨(visit_is_real_iff LEVEL_5_MAX (by decide) n).mpr (by simp [LEVEL_5_MAX, Nat.mod_one]), ?_⟩
    rw [visit_counter_eq LEVEL_5_MAX (by decide) n]
    simp [LEVEL_5_MAX, Nat.mod_one]
  · intro s hs
    by_cases hc : skipSel s s.current_segment_index ≠ NOT_USED ∧
        skipSel s s.current_segment_index ≤ s.skip_counter s.current_segment_index
    · rw [tick_ss_real s hs hc]
      unfold start_sending_visit
      rw [if_pos hc]
      simp
    · rw [tick_ss_blank s hs hc]
      unfold start_sending_visit
      rw [if_neg hc]
      simp

/-- Witness for c2_dimming_law at T = 2, n = 5, m = 1 and the post-init
machine state moved to STATE_START_SENDING. -/
theorem c2_dimming_law_witness :
    visit_counter 2 5 = 2 ∧ visit_is_real 2 5 = true ∧
    (Finset.filter (fun k => visit_is_real 2 (1 * (2 + 1) + k) = true)
      (Finset.range (2 + 1))).card = 1 ∧
    (HAL_TIM_PeriodElapsedCallback ssDemoState).2 = some void_data := by
  have h := c2_dimming_law 2 5 1 (by decide) (by decide)
  refine ⟨h.1.trans (by decide), h.2.1.mpr (by decide), h.2.2.1, ?_⟩
  rw [(h.2.2.2.2 ssDemoState rfl).1]
  decide

/-- Helper: a timer tick outside STATE_PREPARE never changes the active
buffer index. -/
theorem tick_active_eq (s : DriverState) (h : s.tstate ≠ STATE_PREPARE) :
    (HAL_TIM_PeriodElapsedCallback s).1.current_active_buf_index = s.current_active_buf_index := by
  obtain ⟨b0, b1, sc, spi, nbr, act, tst, idx, sel, cs, hh, ini, ta⟩ := s
  cases tst with
  | STATE_PREPARE => exact absurd rfl h
  | STATE_START_SENDING =>
    dsimp only [HAL_TIM_PeriodElapsedCallback]
    split_ifs <;> rfl
  | STATE_WAIT_SPI =>
    dsimp only [HAL_TIM_PeriodElapsedCallback]
    split_ifs <;> rfl
  | STATE_POST => rfl
  | STATE_WAIT => rfl

/-- Helper: entering driver_7_seg_send_buffer only moves the producer
program counter; it does not touch the driver statics. -/
theorem callSend_drv_eq (s : SysState) (f : Frame) :
    (sysStep (.callSend f) s).drv = s.drv := by
  cases hpc : s.pc <;> simp only [sysStep, hpc] <;> split_ifs <;> rfl

/-- Helper: one copy-loop iteration touches only the targeted buffer slot,
leaving the active index, the skip counters, the ready flag and the
transfer state unchanged. -/
theorem writeSlot_fields (s : DriverState) (t : Nat) (i : Fin 4) (f : Frame) :
    (writeSlot s t i f).current_active_buf_index = s.current_active_buf_index ∧
    (writeSlot s t i f).skip_counter = s.skip_counter ∧
    (writeSlot s t i f).new_buffer_ready = s.new_buffer_ready ∧
    (writeSlot s t i f).tstate = s.tstate := by
  unfold writeSlot
  split_ifs <;> exact ⟨rfl, rfl, rfl, rfl⟩

/-- Helper: a producer micro-step never changes the active buffer index or
the skip counters. -/
theorem prodStep_active_flag (s : SysState) :
    (sysStep .prodStep s).drv.current_active_buf_index = s.drv.current_active_buf_index ∧
    (sysStep .prodStep s).drv.skip_counter = s.drv.skip_counter := by
  cases hpc : s.pc with
  | pWait f =>
    simp only [sysStep, hpc]
    split_ifs <;> exact ⟨rfl, rfl⟩
  | pWrite f t i =>
    simp only [sysStep, hpc]
    by_cases hi : i < 4
    · rw [dif_pos hi]
      exact ⟨(writeSlot_fields s.drv t ⟨i, hi⟩ f).1, (writeSlot_fields s.drv t ⟨i, hi⟩ f).2.1⟩
    · rw [dif_neg hi]
      exact ⟨rfl, rfl⟩
  | pIdle => simp [sysStep, hpc]
  | pDone st => simp [sysStep, hpc]

/-- Claim C1 (amended): the active buffer index changes only on a timer
tick taken in STATE_PREPARE with the new-frame flag set, and that tick
clears the flag and flips the index; it is not restricted to digit index 0
(see the counterexample), only to the PREPARE phase of a digit refresh. -/
theorem c1_swap_only_in_state_prepare (s : SysState) (l : SysLabel) :
    (sysStep l s).drv.current_active_buf_index ≠ s.drv.current_active_buf_index →
      l = .tick ∧ s.drv.tstate = STATE_PREPARE ∧ s.drv.new_buffer_ready = 1 ∧
      (sysStep l s).drv.new_buffer_ready = 0 ∧
      (sysStep l s).drv.current_active_buf_index = s.drv.current_active_buf_index ^^^ 1 := by
  intro hne
  cases l with
  | tick =>
    by_cases htst : s.drv.tstate = STATE_PREPARE
    · obtain ⟨drv, pc, em⟩ := s
      obtain ⟨b0, b1, sc, spi, nbr, act, tst, idx, sel, cs, hh, ini, ta⟩ := drv
      dsimp only at htst
      subst htst
      by_cases hf : nbr = 1
      · subst hf
        exact ⟨rfl, rfl, rfl, rfl, rfl⟩
      · exfalso
        apply hne
        dsimp only [sysStep, HAL_TIM_PeriodElapsedCallback]
        rw [if_neg hf]
    · exfalso
      apply hne
      have h1 := tick_active_eq s.drv htst
      simpa [sysStep] using h1
  | spiDone => exact absurd (by simp [sysStep, HAL_SPI_TxCpltCallback]) hne
  | callSend f => exact absurd (by rw [callSend_drv_eq]) hne
  | prodStep => exact absurd (prodStep_active_flag s).1 hne

/-- Witness for c1_swap_only_in_state_prepare: the tick after
mixPrefixLabels flips the active index, so that state is in STATE_PREPARE
with the flag set. -/
theorem c1_swap_only_in_state_prepare_witness :
    (runLabels mixPrefixLabels initSysState).drv.tstate = STATE_PREPARE ∧
    (runLabels mixPrefixLabels initSysState).drv.new_buffer_ready = 1 := by
  have h := c1_swap_only_in_state_prepare (runLabels mixPrefixLabels initSysState) .tick
    (by decide)
  exact ⟨h.2.1, h.2.2.1⟩

/-- Counterexample to claim C1 as stated: after submitting frameA, scanning
digit 0, and submitting frameB, the scheduler is in STATE_PREPARE at digit
index 1 with frameB pending; the very next tick swaps the active buffer
(mid-scan, not at digit index 0), and the scan cycle that started at digit
0 transmits the word 100 of frameA for digit 0 but the words 201, 202, 203
of frameB for digits 1, 2, 3 — one scan cycle reads transfer words from
two different successfully submitted frames. -/
theorem c1_counterexample_mid_scan_swap :
    (runLabels mixPrefixLabels initSysState).drv.tstate = STATE_PREPARE ∧
    (runLabels mixPrefixLabels initSysState).drv.current_segment_index = 1 ∧
    (runLabels mixPrefixLabels initSysState).drv.new_buffer_ready = 1 ∧
    (runLabels mixPrefixLabels initSysState).drv.current_active_buf_index = 1 ∧
    (sysStep .tick (runLabels mixPrefixLabels initSysState)).drv.current_active_buf_index = 0 ∧
    pcIsDoneOK (runLabels mixPrefixLabels initSysState).pc = true ∧
    pcIsDoneOK (runLabels (submitLabels frameA) initSysState).pc = true ∧
    (runLabels mixFullLabels initSysState).emitted = [100, 201, 202, 203] ∧
    frameA.data 0 = 100 ∧ frameB.data 1 = 201 ∧ frameB.data 2 = 202 ∧
    frameB.data 3 = 203 ∧ frameA.data 1 = 101 := by
  decide

/-- Claim C10: the per-digit skip counters are one array shared by both
buffer slots; no producer-side event (send_buffer call or micro-step, SPI
completion) changes them, the buffer-swap tick in STATE_PREPARE leaves them
unchanged, and a whole completed driver_7_seg_send_buffer call leaves them
unchanged — so the dimming phase carries over across frame submissions. -/
theorem c10_skip_counters_shared (s : SysState) (l : SysLabel) (s2 : DriverState) :
    (l ≠ .tick → (sysStep l s).drv.skip_counter = s.drv.skip_counter) ∧
    (s.drv.tstate = STATE_PREPARE → (sysStep .tick s).drv.skip_counter = s.drv.skip_counter) ∧
    (∀ d b n, (driver_7_seg_send_buffer d b n s2).2.skip_counter = s2.skip_counter) := by
  refine ⟨?_, ?_, ?_⟩
  · intro hl
    cases l with
    | tick => exact absurd rfl hl
    | spiDone => simp [sysStep, HAL_SPI_TxCpltCallback]
    | callSend f => rw [callSend_drv_eq]
    | prodStep => exact (prodStep_active_flag s).2
  · intro htst
    obtain ⟨drv, pc, em⟩ := s
    obtain ⟨b0, b1, sc, spi, nbr, act, tst, idx, sel, cs, hh, ini, ta⟩ := drv
    dsimp only at htst
    subst htst
    dsimp only [sysStep, HAL_TIM_PeriodElapsedCallback]
    split_ifs <;> rfl
  · intro d b n
    simp only [driver_7_seg_send_buffer]
    split_ifs <;> rfl

/-- Witness for c10_skip_counters_shared at the post-init state: a producer
micro-step and the PREPARE tick both leave the counters untouched, and so
does a completed send_buffer call on the zeroed statics. -/
theorem c10_skip_counters_shared_witness :
    (sysStep .prodStep initSysState).drv.skip_counter = initSysState.drv.skip_counter ∧
    (sysStep .tick initSysState).drv.skip_counter = initSysState.drv.skip_counter ∧
    (driver_7_seg_send_buffer (some frameA.data) (some frameA.skip_buff) 4
      zeroDriverState).2.skip_counter = zeroDriverState.skip_counter := by
  have h := c10_skip_counters_shared initSysState .prodStep zeroDriverState
  exact ⟨h.1 (by intro hh; cases hh), h.2.1 rfl,
    h.2.2 (some frameA.data) (some frameA.skip_buff) 4⟩

/-- Helper: when no frame is pending, a timer tick leaves the ready flag
clear and does not change the active index or either buffer slot. -/
theorem tick_keeps_when_flag0 (d : DriverState) (h : d.new_buffer_ready = 0) :
    (HAL_TIM_PeriodElapsedCallback d).1.new_buffer_ready = 0 ∧
    (HAL_TIM_PeriodElapsedCallback d).1.current_active_buf_index = d.current_active_buf_index ∧
    (HAL_TIM_PeriodElapsedCallback d).1.buf0 = d.buf0 ∧
    (HAL_TIM_PeriodElapsedCallback d).1.buf1 = d.buf1 := by
  obtain ⟨b0, b1, sc, spi, nbr, act, tst, idx, sel, cs, hh, ini, ta⟩ := d
  dsimp only at h
  subst h
  cases tst with
  | STATE_PREPARE =>
    dsimp only [HAL_TIM_PeriodElapsedCallback]
    rw [if_neg (by omega)]
    exact ⟨rfl, rfl, rfl, rfl⟩
  | STATE_START_SENDING =>
    dsimp only [HAL_TIM_PeriodElapsedCallback]
    split_ifs <;> exact ⟨rfl, rfl, rfl, rfl⟩
  | STATE_WAIT_SPI =>
    dsimp only [HAL_TIM_PeriodElapsedCallback]
    split_ifs <;> exact ⟨rfl, rfl, rfl, rfl⟩
  | STATE_POST => exact ⟨rfl, rfl, rfl, rfl⟩
  | STATE_WAIT => exact ⟨rfl, rfl, rfl, rfl⟩

/-- Helper: a timer tick outside STATE_PREPARE never changes the ready
flag. -/
theorem tick_flag_eq (d : DriverState) (h : d.tstate ≠ STATE_PREPARE) :
    (HAL_TIM_PeriodElapsedCallback d).1.new_buffer_ready = d.new_buffer_ready := by
  obtain ⟨b0, b1, sc, spi, nbr, act, tst, idx, sel, cs, hh, ini, ta⟩ := d
  cases tst with
  | STATE_PREPARE => exact absurd rfl h
  | STATE_START_SENDING =>
    dsimp only [HAL_TIM_PeriodElapsedCallback]
    split_ifs <;> rfl
  | STATE_WAIT_SPI =>
    dsimp only [HAL_TIM_PeriodElapsedCallback]
    split_ifs <;> rfl
  | STATE_POST => rfl
  | STATE_WAIT => rfl

/-- Helper: one copy-loop iteration updates exactly entry i of the targeted
slot. -/
theorem slot_writeSlot_eq (d : DriverState) (t : Nat) (i : Fin 4) (f : Frame) :
    slot_data (writeSlot d t i f) t = Function.update (slot_data d t) i (f.data i) ∧
    slot_skip (writeSlot d t i f) t = Function.update (slot_skip d t) i (f.skip_buff i) := by
  unfold writeSlot slot_data slot_skip
  by_cases ht : t = 1
  · simp only [ht, if_pos rfl]
    exact ⟨rfl, rfl⟩
  · simp only [ht, if_neg ht]
    exact ⟨rfl, rfl⟩

/-- Helper: a producer micro-step either leaves the ready flag as it was or
sets it to 1 (the final store); it never clears it. -/
theorem prodStep_flag_cases (s : SysState) :
    (sysStep .prodStep s).drv.new_buffer_ready = s.drv.new_buffer_ready ∨
    (sysStep .prodStep s).drv.new_buffer_ready = 1 := by
  cases hpc : s.pc with
  | pWait f =>
    simp only [sysStep, hpc]
    by_cases hflag : s.drv.new_buffer_ready ≠ 0
    · rw [if_pos hflag]; exact Or.inl rfl
    · rw [if_neg hflag]; exact Or.inl rfl
  | pWrite f t i =>
    simp only [sysStep, hpc]
    by_cases hi : i < 4
    · rw [dif_pos hi]
      exact Or.inl (writeSlot_fields s.drv t ⟨i, hi⟩ f).2.2.1
    · rw [dif_neg hi]
      exact Or.inr rfl
  | pIdle => simp [sysStep, hpc]
  | pDone st => simp [sysStep, hpc]

/-- Helper: every system step preserves the copy-loop invariant WriteInv. -/
theorem writeInv_step (s : SysState) (l : SysLabel) (h : WriteInv s) :
    WriteInv (sysStep l s) := by
  cases l with
  | tick =>
    have hpceq : (sysStep .tick s).pc = s.pc := rfl
    unfold WriteInv at h ⊢
    rw [hpceq]
    cases hpc : s.pc with
    | pWrite f t i =>
      rw [hpc] at h
      obtain ⟨h0, ht, hi, hw⟩ := h
      have hk := tick_keeps_when_flag0 s.drv h0
      have hdrveq : (sysStep .tick s).drv = (HAL_TIM_PeriodElapsedCallback s.drv).1 := rfl
      dsimp only [WriteInvAt]
      rw [hdrveq]
      refine ⟨hk.1, by rw [hk.2.1]; exact ht, hi, ?_⟩
      intro j hj
      have hsd : slot_data (HAL_TIM_PeriodElapsedCallback s.drv).1 t = slot_data s.drv t := by
        unfold slot_data
        rw [hk.2.2.1, hk.2.2.2]
      have hss : slot_skip (HAL_TIM_PeriodElapsedCallback s.drv).1 t = slot_skip s.drv t := by
        unfold slot_skip
        rw [hk.2.2.1, hk.2.2.2]
      rw [hsd, hss]
      exact hw j hj
    | pIdle => trivial
    | pWait f => trivial
    | pDone st => trivial
  | spiDone =>
    have hpceq : (sysStep .spiDone s).pc = s.pc := rfl
    unfold WriteInv at h ⊢
    rw [hpceq]
    cases hpc : s.pc with
    | pWrite f t i =>
      rw [hpc] at h
      exact h
    | pIdle => trivial
    | pWait f => trivial
    | pDone st => trivial
  | callSend f =>
    unfold WriteInv at h ⊢
    cases hpc : s.pc with
    | pIdle =>
      simp only [sysStep, hpc]
      split_ifs <;> trivial
    | pDone st =>
      simp only [sysStep, hpc]
      split_ifs <;> trivial
    | pWait g =>
      simp only [sysStep, hpc]
      rw [hpc] at h
      exact h
    | pWrite g t i =>
      simp only [sysStep, hpc]
      rw [hpc] at h
      exact h
  | prodStep =>
    unfold WriteInv at h ⊢
    cases hpc : s.pc with
    | pIdle =>
      simp only [sysStep, hpc]
      rw [hpc] at h
      exact h
    | pDone st =>
      simp only [sysStep, hpc]
      rw [hpc] at h
      exact h
    | pWait f =>
      simp only [sysStep, hpc]
      by_cases hflag : s.drv.new_buffer_ready ≠ 0
      · rw [if_pos hflag, hpc]
        trivial
      · rw [if_neg hflag]
        push_neg at hflag
        exact ⟨hflag, rfl, by omega, fun j hj => absurd hj (by omega)⟩
    | pWrite f t i =>
      rw [hpc] at h
      obtain ⟨h0, ht, hi4, hw⟩ := h
      simp only [sysStep, hpc]
      by_cases hi : i < 4
      · rw [dif_pos hi]
        have hwf := writeSlot_fields s.drv t ⟨i, hi⟩ f
        have hws := slot_writeSlot_eq s.drv t ⟨i, hi⟩ f
        dsimp only [WriteInvAt]
        refine ⟨by rw [hwf.2.2.1]; exact h0, by rw [hwf.1]; exact ht, by omega, ?_⟩
        intro j hj
        rw [hws.1, hws.2]
        by_cases hji : j = ⟨i, hi⟩
        · subst hji
          rw [Function.update_same, Function.update_same]
          exact ⟨rfl, rfl⟩
        · rw [Function.update_noteq hji, Function.update_noteq hji]
          refine hw j ?_
          have hne : j.val ≠ i := fun hv => hji (Fin.ext hv)
          omega
      · rw [dif_neg hi]
        trivial

/-- Helper: WriteInv holds along every run. -/
theorem writeInv_run : ∀ (ls : List SysLabel) (s : SysState),
    WriteInv s → WriteInv (runLabels ls s)
  | [], _, h => h
  | l :: ls, s, h => writeInv_run ls (sysStep l s) (writeInv_step s l h)

/-- Claim C3: in every reachable state of the system, a
driver_7_seg_send_buffer call busy-waiting on a set ready flag makes no
progress (its micro-step is a no-op) and only a STATE_PREPARE timer tick
can clear the flag; once past the wait, the copy loop writes only into the
slot that is not the currently active one (the flag stays clear throughout,
so the active index cannot move under it) with the entries written so far
equal to the submitted frame; and the flag-setting micro-step happens only
after all 4 entries of the frame are in the inactive slot and itself writes
no buffer entry. -/
theorem c3_submit_handoff (ls : List SysLabel) :
    (∀ f, (runLabels ls initSysState).pc = .pWait f →
      (runLabels ls initSysState).drv.new_buffer_ready ≠ 0 →
      sysStep .prodStep (runLabels ls initSysState) = runLabels ls initSysState) ∧
    (∀ f t i, (runLabels ls initSysState).pc = .pWrite f t i →
      (runLabels ls initSysState).drv.new_buffer_ready = 0 ∧
      t ≠ (runLabels ls initSysState).drv.current_active_buf_index ∧
      ∀ j : Fin 4, j.val < i →
        slot_data (runLabels ls initSysState).drv t j = f.data j ∧
        slot_skip (runLabels ls initSysState).drv t j = f.skip_buff j) ∧
    (∀ f t, (runLabels ls initSysState).pc = .pWrite f t 4 →
      (sysStep .prodStep (runLabels ls initSysState)).drv.new_buffer_ready = 1 ∧
      (sysStep .prodStep (runLabels ls initSysState)).drv.buf0 =
        (runLabels ls initSysState).drv.buf0 ∧
      (sysStep .prodStep (runLabels ls initSysState)).drv.buf1 =
        (runLabels ls initSysState).drv.buf1 ∧
      ∀ j : Fin 4, slot_data (runLabels ls initSysState).drv t j = f.data j ∧
        slot_skip (runLabels ls initSysState).drv t j = f.skip_buff j) ∧
    (∀ l, (runLabels ls initSysState).drv.new_buffer_ready ≠ 0 →
      (sysStep l (runLabels ls initSysState)).drv.new_buffer_ready = 0 →
      l = .tick ∧ (runLabels ls initSysState).drv.tstate = STATE_PREPARE) := by
  have hinv : WriteInv (runLabels ls initSysState) :=
    writeInv_run ls initSysState trivial
  set s := runLabels ls initSysState with hs
  refine ⟨?_, ?_, ?_, ?_⟩
  · intro f hpc hflag
    simp only [sysStep, hpc]
    rw [if_pos hflag]
  · intro f t i hpc
    unfold WriteInv at hinv
    rw [hpc] at hinv
    obtain ⟨h0, ht, hi, hw⟩ := hinv
    refine ⟨h0, ?_, hw⟩
    by_cases hact : s.drv.current_active_buf_index = 0
    · rw [ht, if_pos hact, hact]
      omega
    · rw [ht, if_neg hact]
      omega
  · intro f t hpc
    unfold WriteInv at hinv
    rw [hpc] at hinv
    obtain ⟨h0, ht, hi, hw⟩ := hinv
    simp only [sysStep, hpc]
    rw [dif_neg (by omega)]
    exact ⟨rfl, rfl, rfl, fun j => hw j j.isLt⟩
  · intro l hflag hafter
    cases l with
    | tick =>
      by_cases htst : s.drv.tstate = STATE_PREPARE
      · exact ⟨rfl, htst⟩
      · exfalso
        have heq : (sysStep .tick s).drv.new_buffer_ready = s.drv.new_buffer_ready :=
          tick_flag_eq s.drv htst
        rw [heq] at hafter
        exact hflag hafter
    | spiDone =>
      exfalso
      have heq : (sysStep .spiDone s).drv.new_buffer_ready = s.drv.new_buffer_ready := rfl
      rw [heq] at hafter
      exact hflag hafter
    | callSend f =>
      exfalso
      rw [callSend_drv_eq] at hafter
      exact hflag hafter
    | prodStep =>
      exfalso
      rcases prodStep_flag_cases s with hcase | hcase
      · rw [hcase] at hafter
        exact hflag hafter
      · rw [hcase] at hafter
        exact absurd hafter (by omega)

/-- Witness for c3_submit_handoff: with frameA submitted and pending, a
call submitting frameB is blocked (its micro-step is a no-op); two
micro-steps into a fresh submission the target is slot 1 while slot 0 is
active; and the sixth micro-step of a submission is the flag store. -/
theorem c3_submit_handoff_witness :
    sysStep .prodStep (runLabels (submitLabels frameA ++ [SysLabel.callSend frameB])
      initSysState) =
      runLabels (submitLabels frameA ++ [SysLabel.callSend frameB]) initSysState ∧
    (1 : Nat) ≠ (runLabels [SysLabel.callSend frameA, .prodStep, .prodStep]
      initSysState).drv.current_active_buf_index ∧
    (sysStep .prodStep (runLabels (SysLabel.callSend frameA :: List.replicate 5 .prodStep)
      initSysState)).drv.new_buffer_ready = 1 := by
  refine ⟨?_, ?_, ?_⟩
  · exact (c3_submit_handoff (submitLabels frameA ++ [SysLabel.callSend frameB])).1 frameB rfl
      (by decide)
  · exact ((c3_submit_handoff [SysLabel.callSend frameA, .prodStep, .prodStep]).2.1 frameA 1 1
      rfl).2.1
  · exact ((c3_submit_handoff (SysLabel.callSend frameA :: List.replicate 5 .prodStep)).2.2.1
      frameA 1 rfl).1

/-- Helper: labels other than send_buffer calls preserve the
between-init-and-first-submit invariant BlankInv. -/
theorem blankInv_step (s : SysState) (l : SysLabel) (h : BlankInv s)
    (hl : isCallSend l = false) : BlankInv (sysStep l s) := by
  obtain ⟨drv, pc, em⟩ := s
  obtain ⟨hpc, h0, hact, hsel, hsb, hem⟩ := h
  dsimp only at hpc h0 hact hsel hsb hem
  subst hpc
  obtain ⟨b0, b1, sc, spi, nbr, act, tst, idx, sel, cs, hh, ini, ta⟩ := drv
  dsimp only at h0 hact hsel hsb
  subst h0
  subst hact
  subst hsel
  cases l with
  | callSend f => exact absurd hl (by simp [isCallSend])
  | spiDone =>
    exact ⟨rfl, rfl, rfl, rfl, hsb, hem⟩
  | prodStep =>
    exact ⟨rfl, rfl, rfl, rfl, hsb, hem⟩
  | tick =>
    cases tst with
    | STATE_PREPARE =>
      refine ⟨rfl, rfl, rfl, rfl, hsb, ?_⟩
      intro w hw
      rcases List.mem_append.mp hw with hw1 | hw2
      · exact hem w hw1
      · exact absurd (show w ∈ ([] : List Nat) from hw2) (List.not_mem_nil w)
    | STATE_START_SENDING =>
      have hcond : ¬ (skipSel ⟨b0, b1, sc, spi, 0, 0, STATE_START_SENDING, idx, 0, cs, hh, ini,
          ta⟩ idx ≠ NOT_USED ∧
          skipSel ⟨b0, b1, sc, spi, 0, 0, STATE_START_SENDING, idx, 0, cs, hh, ini, ta⟩ idx ≤
            sc idx) := fun hcc => hcc.1 (hsb idx)
      refine ⟨rfl, ?_, ?_, ?_, ?_, ?_⟩
      · dsimp only [sysStep, HAL_TIM_PeriodElapsedCallback]
        rw [if_neg hcond]
      · dsimp only [sysStep, HAL_TIM_PeriodElapsedCallback]
        rw [if_neg hcond]
      · dsimp only [sysStep, HAL_TIM_PeriodElapsedCallback]
        rw [if_neg hcond]
      · dsimp only [sysStep, HAL_TIM_PeriodElapsedCallback]
        rw [if_neg hcond]
        exact hsb
      · intro w hw
        dsimp only [sysStep, HAL_TIM_PeriodElapsedCallback] at hw
        rw [if_neg hcond] at hw
        rcases List.mem_append.mp hw with hw1 | hw2
        · exact hem w hw1
        · exact List.mem_singleton.mp (show w ∈ [void_data] from hw2)
    | STATE_WAIT_SPI =>
      by_cases hspi : spi ≠ 0
      · refine ⟨rfl, ?_, ?_, ?_, ?_, ?_⟩
        · dsimp only [sysStep, HAL_TIM_PeriodElapsedCallback]; rw [if_pos hspi]
        · dsimp only [sysStep, HAL_TIM_PeriodElapsedCallback]; rw [if_pos hspi]
        · dsimp only [sysStep, HAL_TIM_PeriodElapsedCallback]; rw [if_pos hspi]
        · dsimp only [sysStep, HAL_TIM_PeriodElapsedCallback]
          rw [if_pos hspi]
          exact hsb
        · intro w hw
          dsimp only [sysStep, HAL_TIM_PeriodElapsedCallback] at hw
          rw [if_pos hspi] at hw
          rcases List.mem_append.mp hw with hw1 | hw2
          · exact hem w hw1
          · exact absurd (show w ∈ ([] : List Nat) from hw2) (List.not_mem_nil w)
      · refine ⟨rfl, ?_, ?_, ?_, ?_, ?_⟩
        · dsimp only [sysStep, HAL_TIM_PeriodElapsedCallback]; rw [if_neg hspi]
        · dsimp only [sysStep, HAL_TIM_PeriodElapsedCallback]; rw [if_neg hspi]
        · dsimp only [sysStep, HAL_TIM_PeriodElapsedCallback]; rw [if_neg hspi]
        · dsimp only [sysStep, HAL_TIM_PeriodElapsedCallback]
          rw [if_neg hspi]
          exact hsb
        · intro w hw
          dsimp only [sysStep, HAL_TIM_PeriodElapsedCallback] at hw
          rw [if_neg hspi] at hw
          rcases List.mem_append.mp hw with hw1 | hw2
          · exact hem w hw1
          · exact absurd (show w ∈ ([] : List Nat) from hw2) (List.not_mem_nil w)
    | STATE_POST =>
      refine ⟨rfl, rfl, rfl, rfl, hsb, ?_⟩
      intro w hw
      rcases List.mem_append.mp hw with hw1 | hw2
      · exact hem w hw1
      · exact absurd (show w ∈ ([] : List Nat) from hw2) (List.not_mem_nil w)
    | STATE_WAIT =>
      refine ⟨rfl, rfl, rfl, rfl, hsb, ?_⟩
      intro w hw
      rcases List.mem_append.mp hw with hw1 | hw2
      · exact hem w hw1
      · exact absurd (show w ∈ ([] : List Nat) from hw2) (List.not_mem_nil w)

/-- Helper: BlankInv holds along every run without send_buffer calls. -/
theorem blankInv_run : ∀ (ls : List SysLabel) (s : SysState), BlankInv s →
    (∀ l ∈ ls, isCallSend l = false) → BlankInv (runLabels ls s)
  | [], _, h, _ => h
  | l :: ls, s, h, hls =>
    blankInv_run ls (sysStep l s) (blankInv_step s l h (hls l (List.mem_cons_self l ls)))
      (fun x hx => hls x (List.mem_cons_of_mem l hx))

/-- Claim C9: after a successful driver_7_seg_init and before the first
driver_7_seg_send_buffer call, the active slot (buf0) has all four skip
thresholds equal to the NOT_USED sentinel, slot 0 stays active, and every
word the scheduler hands to the SPI is the blank word void_data: the
display stays entirely blank until the first frame is submitted. -/
theorem c9_blank_until_first_submit (ls : List SysLabel)
    (hls : ∀ l ∈ ls, isCallSend l = false) :
    (∀ j : Fin 4, (runLabels ls initSysState).drv.buf0.skip_buff j = NOT_USED) ∧
    (runLabels ls initSysState).drv.current_active_buf_index = 0 ∧
    (∀ w ∈ (runLabels ls initSysState).emitted, w = void_data) := by
  have hbase : BlankInv initSysState :=
    ⟨rfl, rfl, rfl, rfl, fun j => rfl, fun w hw => absurd hw (List.not_mem_nil w)⟩
  have h := blankInv_run ls initSysState hbase hls
  exact ⟨h.2.2.2.2.1, h.2.2.1, h.2.2.2.2.2⟩

/-- Witness for c9_blank_until_first_submit on two full digit refreshes
after init: the threshold of digit 0 is still NOT_USED, slot 0 is active,
and the emitted words (both equal to 0) are the blank word. -/
theorem c9_blank_until_first_submit_witness :
    (runLabels (scanDigitLabels ++ scanDigitLabels) initSysState).drv.buf0.skip_buff 0 =
      NOT_USED ∧
    (runLabels (scanDigitLabels ++ scanDigitLabels) initSysState).drv.current_active_buf_index
      = 0 ∧
    (0 : Nat) = void_data := by
  have h := c9_blank_until_first_submit (scanDigitLabels ++ scanDigitLabels) (by decide)
  exact ⟨h.1 0, h.2.1, h.2.2 0 (by decide)⟩

end SevenSeg
